import Mathlib

/-!
Verification of the `lrsManagementRest.js` REST client module.

The JavaScript source is shallowly embedded: each function of the module
becomes a Lean definition of the same name (modulo Lean naming rules).
JavaScript truthiness of optional string/number option fields is modelled
by `truthyS` / `truthyN` over `Option String` / `Option Nat`; a thrown
exception is modelled by `Except.error`; the events emitted on the Client
are collected in a `List Event`.
-/

set_option maxHeartbeats 1000000

/-- JS truthiness of an optional string value: `undefined` and `""` are falsy. -/
def truthyS : Option String → Bool
  | none => false
  | some s => !s.isEmpty

/-- JS truthiness of an optional number value: `undefined` and `0` are falsy. -/
def truthyN : Option Nat → Bool
  | none => false
  | some n => n != 0

/-- JS `o || d` for an optional string `o`: `d` when `o` is falsy. -/
def jsOrS (o : Option String) (d : String) : String :=
  match o with
  | none => d
  | some s => if s.isEmpty then d else s

/-- JS `o || d` for an optional number `o`: `d` when `o` is falsy. -/
def jsOrN (o : Option Nat) (d : Nat) : Nat :=
  match o with
  | none => d
  | some n => if n == 0 then d else n

/-- JS string coercion of a possibly-`undefined` string
(`undefined + ":" ...` renders as `"undefined"`). -/
def jsStr : Option String → String
  | none => "undefined"
  | some s => s

/-- JS string coercion of a possibly-`undefined` number. -/
def jsStrN : Option Nat → String
  | none => "undefined"
  | some n => toString n

/-- `as` is a leading segment of `bs`. -/
def leadsWith : List Char → List Char → Bool
  | [], _ => true
  | _ :: _, [] => false
  | a :: as, b :: bs => a == b && leadsWith as bs

/-- The pattern `pat` occurs somewhere in the character list. -/
def hasSub (pat : List Char) : List Char → Bool
  | [] => leadsWith pat []
  | c :: cs => leadsWith pat (c :: cs) || hasSub pat cs

/-- `body.indexOf(pat) != -1`: the body contains `pat` as a substring. -/
def jsContains (s pat : String) : Bool :=
  hasSub pat.data s.data

/-- The characters before the first occurrence of `pat` (the whole list when
`pat` does not occur). -/
def takeUntilPat (pat : List Char) : List Char → List Char
  | [] => []
  | c :: cs => if leadsWith pat (c :: cs) then [] else c :: takeUntilPat pat cs

/-- `s.split(sep)[0]` for a non-empty separator: the part of `s` before the
first occurrence of `sep` (all of `s` when `sep` does not occur). -/
def splitFirst (s sep : String) : String :=
  String.mk (takeUntilPat sep.data s.data)

/-- Source line 16: unix domain socket name to connect to the local REST server. -/
def unixSockName : String := "/tmp/rest_server/http.sock"

/-- The `connectionOptions` object: starts as `{}` in `logIn` and is filled
with either `host`/`port` or `socketPath`. -/
structure ConnOptions where
  host : Option String := none
  port : Option Nat := none
  socketPath : Option String := none
deriving DecidableEq, Repr

/-- The mutable session state of a `Client` instance.  `apiBase` models the
`apiPrefix` field of the source.  `connectionOptions` is `none` until the
first `logIn` call (the constructor never sets it). -/
structure ClientState where
  loggedIn : Bool
  apiBase : String
  sid : Option String := none
  connectionOptions : Option ConnOptions := none
deriving DecidableEq, Repr

/-- The `Client` constructor (source lines 253-271): sets `loggedIn = false`
and the API path `apiPrefix`; `sid` and `connectionOptions` stay undefined. -/
def Client : ClientState :=
  { loggedIn := false, apiBase := "/lrs/api/v1.0" }

/-- The value of a response header: Node delivers `set-cookie` either as a
plain string or as an array of strings; the code handles both. -/
inductive HeaderVal where
  | str (s : String)
  | arr (vals : List String)
deriving DecidableEq, Repr

/-- An HTTP response as seen by the response callbacks: the `set-cookie`
header (if any), the status code, and the body chunks delivered by the
`data` events before `end`. -/
structure Response where
  setCookie : Option HeaderVal := none
  statusCode : Nat := 200
  chunks : List String := []
deriving DecidableEq, Repr

/-- The full response body accumulated by `body += chunk` over all data events. -/
def Response.fullBody (r : Response) : String :=
  r.chunks.foldl (fun acc c => acc ++ c) ""

/-- Events emitted on the Client event emitter. -/
inductive Event where
  | error (message : String)
  | login
  | logout
  | loginFailure (response : Response) (body : String)
  | loginRequestFailure (message : String)
  | logoutRequestFailure (message : String)
deriving DecidableEq, Repr

/-- The local options record handed to the request builders
(`path`, `contentLength`, `contentType`, `cookie`, and — only for the login
request — `host`/`port`).  Callbacks are not modelled. -/
structure BuildOpts where
  path : Option String := none
  contentLength : Option Nat := none
  contentType : Option String := none
  cookie : Option String := none
  host : Option String := none
  port : Option Nat := none
deriving DecidableEq, Repr

/-- The `requestOptions` object built by the request builders, including the
keys a merge with `connectionOptions` can add. -/
structure ReqOptions where
  path : String
  method : String
  agent : Option Bool := none
  headerAccept : String := "*/*"
  headerContentLength : Option Nat := none
  headerContentType : Option String := none
  headerCookie : Option String := none
  host : Option String := none
  port : Option Nat := none
  socketPath : Option String := none
deriving DecidableEq, Repr

/-- Source lines 24-33 `mergeOptions(obj1, obj2)`, instantiated at the shapes
it is applied to in the builders: `obj2`'s values overwrite `obj1`'s and are
added when non-existent in `obj1`.  `connectionOptions` can only carry the
keys `host`, `port` and `socketPath`. -/
def mergeOptions (obj1 : ReqOptions) (obj2 : ConnOptions) : ReqOptions :=
  { obj1 with
    host := match obj2.host with | some h => some h | none => obj1.host
    port := match obj2.port with | some p => some p | none => obj1.port
    socketPath := match obj2.socketPath with | some s => some s | none => obj1.socketPath }

/-- Source lines 468-470 `missingArgError(name)`. -/
def missingArgError (name : String) : String :=
  "Missing required argument: " ++ name

/-- The outbound request returned by a builder: the merged request options
(after the cookie was added) together with the final value of the `Host`
header, which the builders set to `options.host + ":" + options.port`. -/
structure OutboundRequest where
  requestOptions : ReqOptions
  hostHeader : String
deriving DecidableEq, Repr

/-- Source lines 276-299 `getPostReq(options, connectionOptions)`.
`Except.error` models a thrown exception: the `testRequiredOptions` throws on
a falsy required option, and `mergeOptions` throws a `TypeError` when
`connectionOptions` is `undefined` (`Object.getOwnPropertyNames(undefined)`). -/
def getPostReq (options : BuildOpts) (connectionOptions : Option ConnOptions) :
    Except String OutboundRequest :=
  if !truthyS options.path then Except.error (missingArgError "path")
  else if !truthyN options.contentLength then Except.error (missingArgError "contentLength")
  else if !truthyS options.contentType then Except.error (missingArgError "contentType")
  else
    match connectionOptions with
    | none => Except.error "TypeError: Object.getOwnPropertyNames called on undefined"
    | some conn =>
      let requestOptions : ReqOptions :=
        { path := jsStr options.path, method := "POST", agent := some false,
          headerContentLength := options.contentLength,
          headerContentType := options.contentType }
      let merged := mergeOptions requestOptions conn
      let withCookie :=
        if truthyS options.cookie then { merged with headerCookie := options.cookie }
        else merged
      Except.ok { requestOptions := withCookie,
                  hostHeader := jsStr options.host ++ ":" ++ jsStrN options.port }

/-- Source lines 301-321 `getGetReq(options, connectionOptions)`. -/
def getGetReq (options : BuildOpts) (connectionOptions : Option ConnOptions) :
    Except String OutboundRequest :=
  if !truthyS options.path then Except.error (missingArgError "path")
  else
    match connectionOptions with
    | none => Except.error "TypeError: Object.getOwnPropertyNames called on undefined"
    | some conn =>
      let requestOptions : ReqOptions :=
        { path := jsStr options.path, method := "GET", agent := some false }
      let merged := mergeOptions requestOptions conn
      let withCookie :=
        if truthyS options.cookie then { merged with headerCookie := options.cookie }
        else merged
      Except.ok { requestOptions := withCookie,
                  hostHeader := jsStr options.host ++ ":" ++ jsStrN options.port }

/-- Source lines 323-342 `getDeleteReq(options, connectionOptions)`; note the
missing `agent : false` in its request options. -/
def getDeleteReq (options : BuildOpts) (connectionOptions : Option ConnOptions) :
    Except String OutboundRequest :=
  if !truthyS options.path then Except.error (missingArgError "path")
  else
    match connectionOptions with
    | none => Except.error "TypeError: Object.getOwnPropertyNames called on undefined"
    | some conn =>
      let requestOptions : ReqOptions :=
        { path := jsStr options.path, method := "DELETE" }
      let merged := mergeOptions requestOptions conn
      let withCookie :=
        if truthyS options.cookie then { merged with headerCookie := options.cookie }
        else merged
      Except.ok { requestOptions := withCookie,
                  hostHeader := jsStr options.host ++ ":" ++ jsStrN options.port }

/-- Source lines 344-366 `getPutReq(options, connectionOptions)`; like
`getDeleteReq` it omits `agent : false`. -/
def getPutReq (options : BuildOpts) (connectionOptions : Option ConnOptions) :
    Except String OutboundRequest :=
  if !truthyS options.path then Except.error (missingArgError "path")
  else if !truthyN options.contentLength then Except.error (missingArgError "contentLength")
  else if !truthyS options.contentType then Except.error (missingArgError "contentType")
  else
    match connectionOptions with
    | none => Except.error "TypeError: Object.getOwnPropertyNames called on undefined"
    | some conn =>
      let requestOptions : ReqOptions :=
        { path := jsStr options.path, method := "PUT",
          headerContentLength := options.contentLength,
          headerContentType := options.contentType }
      let merged := mergeOptions requestOptions conn
      let withCookie :=
        if truthyS options.cookie then { merged with headerCookie := options.cookie }
        else merged
      Except.ok { requestOptions := withCookie,
                  hostHeader := jsStr options.host ++ ":" ++ jsStrN options.port }

/-- The options accepted by `logIn`. -/
structure LoginOpts where
  username : Option String := none
  password : Option String := none
  host : Option String := none
  port : Option Nat := none
  path : Option String := none
deriving DecidableEq, Repr

/-- Everything the synchronous part of a `logIn` call does: the client state
afterwards, the events emitted synchronously, the outbound POST request (with
the form data written to it) when one is issued, and whether the
`process.nextTick` socket-login completion was scheduled. -/
structure LogInResult where
  state : ClientState
  events : List Event
  request : Option (OutboundRequest × String) := none
  tickScheduled : Bool := false
deriving DecidableEq, Repr

/-- Source lines 53-127, the function returned by `getBound_logIn`: validates
the username/password combination, chooses the connection transport, and for
host/port logins builds and sends the form-encoded POST.  A thrown exception
is `Except.error`. -/
def getBound_logIn (st : ClientState) (opts : LoginOpts) : Except String LogInResult :=
  if truthyS opts.username && !truthyS opts.password then
    Except.ok { state := st,
                events := [Event.error
                  "Client login options contained the username  but no password."] }
  else if !truthyS opts.username && truthyS opts.password then
    Except.ok { state := st,
                events := [Event.error
                  "Client login options contained the password  but no username."] }
  else
    let username := jsOrS opts.username "testlab"
    let password := jsOrS opts.password "changeme"
    let data := "username=" ++ username ++ "&password=" ++ password
    let path := jsOrS opts.path "/login"
    if truthyS opts.host || truthyN opts.port then
      let host := jsOrS opts.host "127.0.0.1"
      let port := jsOrN opts.port 3001
      let conn : ConnOptions := { host := some host, port := some port }
      let localOptions : BuildOpts :=
        { path := some path, contentLength := some data.length,
          contentType := some "application/x-www-form-urlencoded",
          host := some host, port := some port }
      match getPostReq localOptions (some conn) with
      | Except.error e => Except.error e
      | Except.ok req =>
        Except.ok { state := { st with connectionOptions := some conn },
                    events := [], request := some (req, data) }
    else
      let conn : ConnOptions := { socketPath := some unixSockName }
      Except.ok { state := { st with connectionOptions := some conn },
                  events := [], tickScheduled := true }

/-- The closure scheduled with `process.nextTick` in the unix-socket branch of
`logIn` (source lines 92-95): sets `loggedIn` and emits `login`. -/
def socketLoginTick (st : ClientState) : ClientState × List Event :=
  ({ st with loggedIn := true }, [Event.login])

/-- The `setCookieHdr` normalization in the login response callback (source
lines 105-108): the header value itself when it is a plain string, its first
element when it is an array, `undefined` otherwise. -/
def firstSetCookie : Option HeaderVal → Option String
  | some (HeaderVal.str s) => some s
  | some (HeaderVal.arr vals) => vals.head?
  | none => none

/-- The `checkBody` closure run on the `end` event of the login response
(source lines 99-116): a body containing "login" means a failed login; else
the session cookie is the first `set-cookie` value up to the first `"; "`
(and a missing `set-cookie` header makes `.split` throw a `TypeError`). -/
def loginCheckBody (st : ClientState) (loginResponse : Response) :
    Except String (ClientState × List Event) :=
  let body := loginResponse.fullBody
  if jsContains body "login" then
    Except.ok (st, [Event.loginFailure loginResponse body])
  else
    match firstSetCookie loginResponse.setCookie with
    | none => Except.error "TypeError: Cannot read properties of undefined (reading split)"
    | some s =>
      Except.ok ({ st with sid := some (splitFirst s "; "), loggedIn := true },
                 [Event.login])

/-- Source lines 128-151, the function returned by `getBound_logOut`: builds
the GET request for `path || "/logout"` with the stored cookie. -/
def getBound_logOut (st : ClientState) (path : Option String) :
    Except String OutboundRequest :=
  getGetReq { path := some (jsOrS path "/logout"), cookie := st.sid }
    st.connectionOptions

/-- The response callback of `logOut` (source lines 138-141): unconditionally
clears `loggedIn` and emits `logout`, ignoring the response entirely. -/
def logOutResponseHandler (st : ClientState) (_logoutResponse : Response) :
    ClientState × List Event :=
  ({ st with loggedIn := false }, [Event.logout])

/-- A JSON value, for the bodies of the PUT/POST JSON calls. -/
inductive JVal where
  | str (s : String)
  | num (n : Int)
  | bool (b : Bool)
  | null
  | arr (elems : List JVal)
  | obj (fields : List (String × JVal))

/-- Escaping applied by `JSON.stringify` inside string values (only quotes
and backslashes occur in the inputs we consider). -/
def jsonEscapeChar (c : Char) : String :=
  if c = '"' then "\\\"" else if c = '\\' then "\\\\" else String.singleton c

/-- Escape a whole string for embedding in JSON output. -/
def jsonEscape (s : String) : String :=
  String.join (s.toList.map jsonEscapeChar)

mutual
/-- Model of the platform builtin `JSON.stringify` on `JVal`. -/
def jsonStringify : JVal → String
  | JVal.str s => "\"" ++ jsonEscape s ++ "\""
  | JVal.num n => toString n
  | JVal.bool b => if b then "true" else "false"
  | JVal.null => "null"
  | JVal.arr elems => "[" ++ String.intercalate "," (jsonStringifyList elems) ++ "]"
  | JVal.obj fields => "\x7b" ++ String.intercalate "," (jsonStringifyFields fields) ++ "\x7d"

/-- `JSON.stringify` of the elements of an array. -/
def jsonStringifyList : List JVal → List String
  | [] => []
  | v :: vs => jsonStringify v :: jsonStringifyList vs

/-- `JSON.stringify` of the fields of an object. -/
def jsonStringifyFields : List (String × JVal) → List String
  | [] => []
  | (k, v) :: fs =>
    ("\"" ++ jsonEscape k ++ "\":" ++ jsonStringify v) :: jsonStringifyFields fs
end

/-- Source lines 453-466 `toJsonString(arg)`: a string passes through
unchanged, anything else is serialized with `JSON.stringify`. -/
def toJsonString : JVal → String
  | JVal.str s => s
  | v => jsonStringify v

/-- Source lines 152-168, the function returned by `getBound_getJSON`, after
option parsing: prefixes the path with `apiPrefix`, attaches the stored
cookie, and builds the GET request. -/
def getBound_getJSON (st : ClientState) (path : String) :
    Except String OutboundRequest :=
  getGetReq { path := some (st.apiBase ++ path), cookie := st.sid }
    st.connectionOptions

/-- Source lines 170-194, the function returned by `getBound_putJSON`, after
option parsing: serializes the body, builds the PUT request and writes the
serialized body to it (returned as the second component). -/
def getBound_putJSON (st : ClientState) (path : String) (body : JVal) :
    Except String (OutboundRequest × String) :=
  let jsonString := toJsonString body
  match getPutReq { path := some (st.apiBase ++ path),
                    contentLength := some jsonString.length,
                    contentType := some "application/json",
                    cookie := st.sid } st.connectionOptions with
  | Except.error e => Except.error e
  | Except.ok req => Except.ok (req, jsonString)

/-- Source lines 195-219, the function returned by `getBound_postJSON`. -/
def getBound_postJSON (st : ClientState) (path : String) (body : JVal) :
    Except String (OutboundRequest × String) :=
  let jsonString := toJsonString body
  match getPostReq { path := some (st.apiBase ++ path),
                     contentLength := some jsonString.length,
                     contentType := some "application/json",
                     cookie := st.sid } st.connectionOptions with
  | Except.error e => Except.error e
  | Except.ok req => Except.ok (req, jsonString)

/-- Source lines 220-237, the function returned by `getBound_deleteJSON`. -/
def getBound_deleteJSON (st : ClientState) (path : String) :
    Except String OutboundRequest :=
  getDeleteReq { path := some (st.apiBase ++ path), cookie := st.sid }
    st.connectionOptions

/-- The per-request error handler installed by `getBound_installErrorProxy`
(source lines 238-251), as a function of the number of error listeners on the
request when the error fires: with more than one listener the user installed
their own and nothing is emitted; otherwise the error is proxied to the
Client's `error` event. -/
def installErrorProxyOnError (errorListenerCount : Nat) (message : String) :
    List Event :=
  if errorListenerCount > 1 then [] else [Event.error message]

/-- `true` exactly on `Except.ok`. -/
def exceptIsOk {ε α : Type} : Except ε α → Bool
  | Except.ok _ => true
  | Except.error _ => false

/-- `true` exactly on `Except.error`. -/
def exceptIsError {ε α : Type} : Except ε α → Bool
  | Except.ok _ => false
  | Except.error _ => true

instance {ε α : Type} [DecidableEq ε] [DecidableEq α] : DecidableEq (Except ε α) :=
  fun a b =>
    match a, b with
    | Except.error e1, Except.error e2 =>
      if h : e1 = e2 then isTrue (by rw [h])
      else isFalse (fun hh => h (Except.error.inj hh))
    | Except.ok v1, Except.ok v2 =>
      if h : v1 = v2 then isTrue (by rw [h])
      else isFalse (fun hh => h (Except.ok.inj hh))
    | Except.error _, Except.ok _ => isFalse (fun hh => Except.noConfusion hh)
    | Except.ok _, Except.error _ => isFalse (fun hh => Except.noConfusion hh)

/-- A JavaScript argument value as passed to the flexible-signature API
functions: a string, an object (an ordered list of enumerable properties), or
some other non-string value such as a callback function. -/
inductive Arg where
  | str (s : String)
  | obj (fields : List (String × Arg))
  | fn

/-- Source lines 447-449 `isString(obj)`. -/
def isStringArg : Arg → Bool
  | Arg.str _ => true
  | _ => false

/-- Property read `o[k]` on a JS object represented as an ordered list of
properties: the value at the first matching key, `undefined` when absent. -/
def jsLookup {V : Type} (o : List (String × V)) (k : String) : Option V :=
  (o.find? (fun p => p.1 == k)).map (fun p => p.2)

/-- Property write `o[k] = v` on a JS object: overwrites the value in place
when the key exists, appends a new property otherwise. -/
def jsAssign {V : Type} (o : List (String × V)) (k : String) (v : V) :
    List (String × V) :=
  if (o.find? (fun p => p.1 == k)).isSome then
    o.map (fun p => if p.1 == k then (k, v) else p)
  else
    o ++ [(k, v)]

/-- A sequence of property writes, in order. -/
def assignAll {V : Type} (o : List (String × V)) (ps : List (String × V)) :
    List (String × V) :=
  ps.foldl (fun acc p => jsAssign acc p.1 p.2) o

/-- JS truthiness of a property value that may be a string, an object, or a
function: only `undefined` and the empty string are falsy here. -/
def truthyArg : Option Arg → Bool
  | none => false
  | some (Arg.str s) => !s.isEmpty
  | some (Arg.obj _) => true
  | some Arg.fn => true

/-- The enumerable properties of an argument (the `for key in args[0]` loop
iterates nothing for a function and cannot see a string here). -/
def argFields : Arg → List (String × Arg)
  | Arg.obj fields => fields
  | _ => []

/-- Source lines 382-387 `testRequiredOptions(options, requiredOptions)`:
throws a missing-argument error at the first required option whose value in
`options` is falsy. -/
def testRequiredOptions (options : List (String × Arg)) :
    List String → Except String Unit
  | [] => Except.ok ()
  | opt :: rest =>
    if truthyArg (jsLookup options opt) then testRequiredOptions options rest
    else Except.error (missingArgError opt)

/-- Source lines 407-445 `parseOptions(args, requiredArgs, optionalArgs)`. -/
def parseOptions (args : List Arg) (requiredArgs optionalArgs : List String) :
    Except String (List (String × Arg)) :=
  match args with
  | [] =>
    if requiredArgs.length = 0 then Except.ok []
    else Except.error ("More arguments required (" ++
           String.intercalate "," requiredArgs ++ ")")
  | a0 :: rest =>
    if isStringArg a0 then
      if (a0 :: rest).length < requiredArgs.length then
        Except.error ("More arguments required (" ++
          String.intercalate "," requiredArgs ++ ")")
      else
        Except.ok (assignAll
          (assignAll [] (requiredArgs.zip (a0 :: rest)))
          (optionalArgs.zip ((a0 :: rest).drop requiredArgs.length)))
    else
      match testRequiredOptions (argFields a0) requiredArgs with
      | Except.error e => Except.error e
      | Except.ok _ =>
        Except.ok (assignAll (assignAll [] (argFields a0))
          (optionalArgs.zip rest))

/-! Helper lemmas. -/

theorem truthyS_jsOrS (o : Option String) (d : String) (hd : d.isEmpty = false) :
    truthyS (some (jsOrS o d)) = true := by
  cases o with
  | none => simp [jsOrS, truthyS, hd]
  | some s =>
    by_cases h : s.isEmpty = true
    · simp [jsOrS, truthyS, h, hd]
    · simp [jsOrS, truthyS, h]

theorem jsOrS_of_falsy (o : Option String) (d : String) (h : truthyS o = false) :
    jsOrS o d = d := by
  cases o with
  | none => rfl
  | some s =>
    simp only [truthyS] at h
    have h2 : s.isEmpty = true := by simpa using h
    simp [jsOrS, h2]

theorem jsOrN_of_falsy (o : Option Nat) (d : Nat) (h : truthyN o = false) :
    jsOrN o d = d := by
  cases o with
  | none => rfl
  | some n =>
    simp only [truthyN] at h
    have h2 : n = 0 := by simpa using h
    simp [jsOrN, h2]

theorem getGetReq_noConn (options : BuildOpts) :
    exceptIsError (getGetReq options none) = true := by
  unfold getGetReq
  split
  · rfl
  · rfl

theorem getDeleteReq_noConn (options : BuildOpts) :
    exceptIsError (getDeleteReq options none) = true := by
  unfold getDeleteReq
  split
  · rfl
  · rfl

theorem getPostReq_noConn (options : BuildOpts) :
    exceptIsError (getPostReq options none) = true := by
  unfold getPostReq
  split
  · rfl
  · split
    · rfl
    · split
      · rfl
      · rfl

theorem getPutReq_noConn (options : BuildOpts) :
    exceptIsError (getPutReq options none) = true := by
  unfold getPutReq
  split
  · rfl
  · split
    · rfl
    · split
      · rfl
      · rfl

theorem getBound_getJSON_noConn (st : ClientState) (p : String)
    (h : st.connectionOptions = none) :
    exceptIsError (getBound_getJSON st p) = true := by
  unfold getBound_getJSON
  rw [h]
  exact getGetReq_noConn _

theorem getBound_deleteJSON_noConn (st : ClientState) (p : String)
    (h : st.connectionOptions = none) :
    exceptIsError (getBound_deleteJSON st p) = true := by
  unfold getBound_deleteJSON
  rw [h]
  exact getDeleteReq_noConn _

theorem getBound_logOut_noConn (st : ClientState) (p : Option String)
    (h : st.connectionOptions = none) :
    exceptIsError (getBound_logOut st p) = true := by
  unfold getBound_logOut
  rw [h]
  exact getGetReq_noConn _

theorem getBound_putJSON_noConn (st : ClientState) (p : String) (b : JVal)
    (h : st.connectionOptions = none) :
    exceptIsError (getBound_putJSON st p b) = true := by
  simp only [getBound_putJSON]
  rw [h]
  cases hg : getPutReq { path := some (st.apiBase ++ p),
                         contentLength := some (toJsonString b).length,
                         contentType := some "application/json",
                         cookie := st.sid } none with
  | error e => rfl
  | ok r =>
    have hE := getPutReq_noConn { path := some (st.apiBase ++ p),
                                  contentLength := some (toJsonString b).length,
                                  contentType := some "application/json",
                                  cookie := st.sid }
    rw [hg] at hE
    simp [exceptIsError] at hE

theorem getBound_postJSON_noConn (st : ClientState) (p : String) (b : JVal)
    (h : st.connectionOptions = none) :
    exceptIsError (getBound_postJSON st p b) = true := by
  simp only [getBound_postJSON]
  rw [h]
  cases hg : getPostReq { path := some (st.apiBase ++ p),
                          contentLength := some (toJsonString b).length,
                          contentType := some "application/json",
                          cookie := st.sid } none with
  | error e => rfl
  | ok r =>
    have hE := getPostReq_noConn { path := some (st.apiBase ++ p),
                                   contentLength := some (toJsonString b).length,
                                   contentType := some "application/json",
                                   cookie := st.sid }
    rw [hg] at hE
    simp [exceptIsError] at hE

/-! Claim theorems. -/

/-- Claim C1: for every login POST response, when the full body contains the
substring "login" the handler emits `loginFailure` with the response object
and the exact body text and leaves `sid` and `loggedIn` unchanged; when the
body does not contain "login", `sid` is set to the first `Set-Cookie` header
value truncated at the first "; " separator, `loggedIn` becomes true, and
`login` is emitted. -/
theorem claim_C1 (st : ClientState) (resp : Response) :
    (jsContains resp.fullBody "login" = true →
      loginCheckBody st resp = Except.ok (st, [Event.loginFailure resp resp.fullBody])) ∧
    (jsContains resp.fullBody "login" = false →
      ∀ s, firstSetCookie resp.setCookie = some s →
        loginCheckBody st resp =
          Except.ok ({ st with sid := some (splitFirst s "; "), loggedIn := true },
                     [Event.login])) := by
  constructor
  · intro h
    simp [loginCheckBody, h]
  · intro h s hs
    simp [loginCheckBody, h, hs]

/-- Witness for C1: the body `"<html>login</html>"` triggers `loginFailure`
with that exact body; the header `Set-Cookie: sid=abc123; Path=/` with a body
not containing "login" yields `sid = "sid=abc123"` and a `login` event. -/
theorem claim_C1_witness :
    loginCheckBody Client { chunks := ["<html>login</html>"] } =
      Except.ok (Client, [Event.loginFailure { chunks := ["<html>login</html>"] }
                            "<html>login</html>"]) ∧
    loginCheckBody Client { setCookie := some (HeaderVal.str "sid=abc123; Path=/"),
                            chunks := ["<html>ok</html>"] } =
      Except.ok ({ Client with sid := some "sid=abc123", loggedIn := true },
                 [Event.login]) := by
  constructor
  · have h := (claim_C1 Client { chunks := ["<html>login</html>"] }).1 (by decide)
    rw [h]; decide
  · have h := (claim_C1 Client { setCookie := some (HeaderVal.str "sid=abc123; Path=/"),
                                 chunks := ["<html>ok</html>"] }).2 (by decide)
      "sid=abc123; Path=/" rfl
    rw [h]; decide

/-- Claim C7: the `logOut` response callback unconditionally sets
`loggedIn := false` and emits `logout`, whatever the response; it is
idempotent (a second `logOut` response emits `logout` again and leaves the
state fixed), it touches neither `connectionOptions` nor `sid`, and a
repeated `logOut` call on a connected client again builds its request
without error. -/
theorem claim_C7 :
    (∀ (st : ClientState) (resp : Response),
      logOutResponseHandler st resp = ({ st with loggedIn := false }, [Event.logout])) ∧
    (∀ (st : ClientState) (r1 r2 : Response),
      logOutResponseHandler (logOutResponseHandler st r1).1 r2 =
        ((logOutResponseHandler st r1).1, [Event.logout])) ∧
    (∀ (st : ClientState) (r : Response),
      (logOutResponseHandler st r).1.connectionOptions = st.connectionOptions ∧
      (logOutResponseHandler st r).1.sid = st.sid) ∧
    (∀ (st : ClientState) (p : Option String) (c : ConnOptions),
      st.connectionOptions = some c → exceptIsOk (getBound_logOut st p) = true) := by
  refine ⟨fun st resp => rfl, fun st r1 r2 => rfl, fun st r => ⟨rfl, rfl⟩, ?_⟩
  intro st p c hc
  unfold getBound_logOut getGetReq
  rw [hc]
  have hp : truthyS (some (jsOrS p "/logout")) = true :=
    truthyS_jsOrS p "/logout" (by decide)
  simp [hp, exceptIsOk]

/-- Witness for C7: a connected client's `logOut` builds its request without
error. -/
theorem claim_C7_witness :
    exceptIsOk (getBound_logOut { loggedIn := false, apiBase := "/lrs/api/v1.0",
                                  sid := some "sid=abc123",
                                  connectionOptions := some ⟨some "127.0.0.1", some 3001, none⟩ }
                none) = true :=
  claim_C7.2.2.2 { loggedIn := false, apiBase := "/lrs/api/v1.0",
                   sid := some "sid=abc123",
                   connectionOptions := some ⟨some "127.0.0.1", some 3001, none⟩ }
    none ⟨some "127.0.0.1", some 3001, none⟩ rfl

/-- Claim C8: a transport error on a request is forwarded to the Client's
`error` event exactly when the request has at most one error listener (the
proxy itself); with more than one listener (a caller-registered handler) the
Client emits nothing. -/
theorem claim_C8 (n : Nat) (e : String) :
    (installErrorProxyOnError n e = [Event.error e] ↔ ¬ n > 1) ∧
    (n > 1 → installErrorProxyOnError n e = []) := by
  unfold installErrorProxyOnError
  by_cases h : n > 1 <;> simp [h]

/-- Witness for C8: one listener forwards, two listeners stay silent. -/
theorem claim_C8_witness :
    installErrorProxyOnError 1 "socket hang up" = [Event.error "socket hang up"] ∧
    installErrorProxyOnError 2 "socket hang up" = [] :=
  ⟨(claim_C8 1 "socket hang up").1.mpr (by decide),
   (claim_C8 2 "socket hang up").2 (by decide)⟩

/-- Claim C9: a freshly constructed Client has `connectionOptions` undefined
and `loggedIn = false`, and every `getJSON`/`putJSON`/`postJSON`/
`deleteJSON`/`logOut` call on it throws synchronously (the request builders
hand the undefined `connectionOptions` to `mergeOptions`) instead of issuing
a request. -/
theorem claim_C9 (p : String) (b : JVal) (lp : Option String) :
    ClientState.connectionOptions Client = none ∧
    ClientState.loggedIn Client = false ∧
    exceptIsError (getBound_getJSON Client p) = true ∧
    exceptIsError (getBound_putJSON Client p b) = true ∧
    exceptIsError (getBound_postJSON Client p b) = true ∧
    exceptIsError (getBound_deleteJSON Client p) = true ∧
    exceptIsError (getBound_logOut Client lp) = true :=
  ⟨rfl, rfl,
   getBound_getJSON_noConn Client p rfl,
   getBound_putJSON_noConn Client p b rfl,
   getBound_postJSON_noConn Client p b rfl,
   getBound_deleteJSON_noConn Client p rfl,
   getBound_logOut_noConn Client lp rfl⟩

/-- Counterexample for C2: on a client logged in over host/port, the GET
request built by `getJSON` carries the Host header `"undefined:undefined"`
(the builders read `options.host`/`options.port` from the per-call local
options, which carry no host/port for the JSON verbs), not
`"127.0.0.1:3001"` from the connection target. -/
theorem claim_C2_counterexample :
    getBound_getJSON ({ loggedIn := true, apiBase := "/lrs/api/v1.0",
                        sid := some "sid=abc123",
                        connectionOptions := some ⟨some "127.0.0.1", some 3001, none⟩ } :
                        ClientState) "/foo"
      = Except.ok { requestOptions := { path := "/lrs/api/v1.0/foo", method := "GET",
                                        agent := some false, headerAccept := "*/*",
                                        headerContentLength := none,
                                        headerContentType := none,
                                        headerCookie := some "sid=abc123",
                                        host := some "127.0.0.1", port := some 3001,
                                        socketPath := none },
                    hostHeader := "undefined:undefined" } ∧
    "undefined:undefined" ≠ "127.0.0.1" ++ ":" ++ toString 3001 := by
  constructor
  · decide
  · decide

/-- Claim C2 (amended): the connection target's host/port do overwrite
same-named keys of the base request options in the merged request options,
but the Host header is built from the builder's per-call local options: the
login POST (whose local options carry host/port) gets `"<host>:<port>"`,
while every request built by the JSON verbs and by `logOut` gets the literal
`"undefined:undefined"`. -/
theorem claim_C2 :
    (∀ (r : ReqOptions) (c : ConnOptions) (h : String),
      c.host = some h → (mergeOptions r c).host = some h) ∧
    (∀ (r : ReqOptions) (c : ConnOptions) (p : Nat),
      c.port = some p → (mergeOptions r c).port = some p) ∧
    (∀ (st : ClientState) (opts : LoginOpts) (res : LogInResult)
       (req : OutboundRequest) (data : String) (c : ConnOptions) (h : String) (p : Nat),
      getBound_logIn st opts = Except.ok res → res.request = some (req, data) →
      res.state.connectionOptions = some c → c.host = some h → c.port = some p →
      req.hostHeader = h ++ ":" ++ toString p) ∧
    (∀ (st : ClientState) (p : String) (req : OutboundRequest),
      getBound_getJSON st p = Except.ok req → req.hostHeader = "undefined:undefined") ∧
    (∀ (st : ClientState) (p : String) (req : OutboundRequest),
      getBound_deleteJSON st p = Except.ok req → req.hostHeader = "undefined:undefined") ∧
    (∀ (st : ClientState) (p : String) (b : JVal) (req : OutboundRequest) (s : String),
      getBound_putJSON st p b = Except.ok (req, s) → req.hostHeader = "undefined:undefined") ∧
    (∀ (st : ClientState) (p : String) (b : JVal) (req : OutboundRequest) (s : String),
      getBound_postJSON st p b = Except.ok (req, s) → req.hostHeader = "undefined:undefined") ∧
    (∀ (st : ClientState) (p : Option String) (req : OutboundRequest),
      getBound_logOut st p = Except.ok req → req.hostHeader = "undefined:undefined") := by
  refine ⟨?_, ?_, ?_, ?_, ?_, ?_, ?_, ?_⟩
  · intro r c h hc
    unfold mergeOptions
    rw [hc]
  · intro r c p hc
    unfold mergeOptions
    rw [hc]
  · intro st opts res req data c h p hok hreq hconn hh hp
    simp only [getBound_logIn] at hok
    split at hok
    · simp only [Except.ok.injEq] at hok
      rw [← hok] at hreq
      simp at hreq
    · split at hok
      · simp only [Except.ok.injEq] at hok
        rw [← hok] at hreq
        simp at hreq
      · split at hok
        · split at hok
          · exact absurd hok (by simp)
          · rename_i req2 heq
            simp only [Except.ok.injEq] at hok
            rw [← hok] at hreq hconn
            simp only [Option.some.injEq, Prod.mk.injEq] at hreq
            simp only [Option.some.injEq] at hconn
            rw [← hconn] at hh hp
            simp only [Option.some.injEq] at hh hp
            unfold getPostReq at heq
            split at heq
            · exact absurd heq (by simp)
            · split at heq
              · exact absurd heq (by simp)
              · split at heq
                · exact absurd heq (by simp)
                · simp only [Except.ok.injEq] at heq
                  rw [← hreq.1, ← heq, ← hh, ← hp]
                  rfl
        · simp only [Except.ok.injEq] at hok
          rw [← hok] at hreq
          simp at hreq
  · intro st p req hok
    unfold getBound_getJSON getGetReq at hok
    split at hok
    · exact absurd hok (by simp)
    · split at hok
      · exact absurd hok (by simp)
      · simp only [Except.ok.injEq] at hok
        rw [← hok]
        rfl
  · intro st p req hok
    unfold getBound_deleteJSON getDeleteReq at hok
    split at hok
    · exact absurd hok (by simp)
    · split at hok
      · exact absurd hok (by simp)
      · simp only [Except.ok.injEq] at hok
        rw [← hok]
        rfl
  · intro st p b req s hok
    simp only [getBound_putJSON] at hok
    split at hok
    · exact absurd hok (by simp)
    · rename_i req2 heq
      simp only [Except.ok.injEq, Prod.mk.injEq] at hok
      unfold getPutReq at heq
      split at heq
      · exact absurd heq (by simp)
      · split at heq
        · exact absurd heq (by simp)
        · split at heq
          · exact absurd heq (by simp)
          · split at heq
            · exact absurd heq (by simp)
            · simp only [Except.ok.injEq] at heq
              rw [← hok.1, ← heq]
              rfl
  · intro st p b req s hok
    simp only [getBound_postJSON] at hok
    split at hok
    · exact absurd hok (by simp)
    · rename_i req2 heq
      simp only [Except.ok.injEq, Prod.mk.injEq] at hok
      unfold getPostReq at heq
      split at heq
      · exact absurd heq (by simp)
      · split at heq
        · exact absurd heq (by simp)
        · split at heq
          · exact absurd heq (by simp)
          · split at heq
            · exact absurd heq (by simp)
            · simp only [Except.ok.injEq] at heq
              rw [← hok.1, ← heq]
              rfl
  · intro st p req hok
    unfold getBound_logOut getGetReq at hok
    split at hok
    · exact absurd hok (by simp)
    · split at hok
      · exact absurd hok (by simp)
      · simp only [Except.ok.injEq] at hok
        rw [← hok]
        rfl

/-- Witness for C2: the connection host overwrites an existing base `host`
key, and a concrete `getJSON` request on a connected client carries the
`"undefined:undefined"` Host header. -/
theorem claim_C2_witness :
    (mergeOptions ({ path := "/x", method := "GET", host := some "base",
                     port := some 1 } : ReqOptions)
       ⟨some "conn", some 9, none⟩).host = some "conn" ∧
    getBound_getJSON ({ loggedIn := true, apiBase := "/lrs/api/v1.0", sid := none,
                        connectionOptions := some ⟨some "10.0.0.1", some 8080, none⟩ } :
                        ClientState) "/bar"
      = Except.ok { requestOptions := { path := "/lrs/api/v1.0/bar", method := "GET",
                                        agent := some false, headerAccept := "*/*",
                                        headerContentLength := none, headerContentType := none,
                                        headerCookie := none, host := some "10.0.0.1",
                                        port := some 8080, socketPath := none },
                    hostHeader := "undefined:undefined" } ∧
    OutboundRequest.hostHeader
        { requestOptions := { path := "/lrs/api/v1.0/bar", method := "GET",
                              agent := some false, headerAccept := "*/*",
                              headerContentLength := none, headerContentType := none,
                              headerCookie := none, host := some "10.0.0.1",
                              port := some 8080, socketPath := none },
          hostHeader := "undefined:undefined" } = "undefined:undefined" := by
  have hm := claim_C2.1 ({ path := "/x", method := "GET", host := some "base",
                           port := some 1 } : ReqOptions)
    ⟨some "conn", some 9, none⟩ "conn" rfl
  have hg : getBound_getJSON ({ loggedIn := true, apiBase := "/lrs/api/v1.0", sid := none,
                                connectionOptions := some ⟨some "10.0.0.1", some 8080, none⟩ } :
                                ClientState) "/bar"
      = Except.ok { requestOptions := { path := "/lrs/api/v1.0/bar", method := "GET",
                                        agent := some false, headerAccept := "*/*",
                                        headerContentLength := none, headerContentType := none,
                                        headerCookie := none, host := some "10.0.0.1",
                                        port := some 8080, socketPath := none },
                    hostHeader := "undefined:undefined" } := by decide
  have hh := claim_C2.2.2.2.1 ({ loggedIn := true, apiBase := "/lrs/api/v1.0", sid := none,
                                 connectionOptions := some ⟨some "10.0.0.1", some 8080, none⟩ } :
                                 ClientState) "/bar" _ hg
  exact ⟨hm, hg, hh⟩

/-- Claim C3: a `logIn` whose options contain a (truthy) username but no
(truthy) password, or vice versa, emits an `error` event with a descriptive
message, issues no HTTP request, schedules nothing, and leaves the client
state (in particular `loggedIn` and `sid`) unchanged. -/
theorem claim_C3 (st : ClientState) (opts : LoginOpts)
    (h : truthyS opts.username ≠ truthyS opts.password) :
    getBound_logIn st opts = Except.ok
      { state := st,
        events := [Event.error (if truthyS opts.username
          then "Client login options contained the username  but no password."
          else "Client login options contained the password  but no username.")],
        request := none, tickScheduled := false } := by
  cases hu : truthyS opts.username <;> cases hp : truthyS opts.password
  · rw [hu, hp] at h
    exact absurd rfl h
  · simp [getBound_logIn, hu, hp]
  · simp [getBound_logIn, hu, hp]
  · rw [hu, hp] at h
    exact absurd rfl h

/-- Witness for C3: a username without a password triggers the `error` event
and no request. -/
theorem claim_C3_witness :
    truthyS (some "alice") ≠ truthyS (none : Option String) ∧
    getBound_logIn Client { username := some "alice" } = Except.ok
      { state := Client,
        events := [Event.error
          "Client login options contained the username  but no password."],
        request := none, tickScheduled := false } := by
  refine ⟨by decide, ?_⟩
  have h := claim_C3 Client { username := some "alice" } (by decide)
  rw [h]
  decide

/-- Counterexample for C4: `logIn({username: "u"})` has neither host nor
port, yet it takes the validation-error path: `connectionOptions` is not set
to the socket path, no next-tick login is scheduled and no `login` is
emitted, contradicting the unconditional claim. -/
theorem claim_C4_counterexample :
    ({ username := some "u" } : LoginOpts).host = none ∧
    ({ username := some "u" } : LoginOpts).port = none ∧
    getBound_logIn Client { username := some "u" } = Except.ok
      { state := Client,
        events := [Event.error
          "Client login options contained the username  but no password."],
        request := none, tickScheduled := false } ∧
    ClientState.connectionOptions Client = none := by
  refine ⟨rfl, rfl, by decide, rfl⟩

/-- Claim C4 (amended): for every `logIn` whose options contain neither a
truthy host nor a truthy port and whose username/password pass validation
(both truthy or both falsy), no HTTP request is issued, `connectionOptions`
is set to the fixed socket path "/tmp/rest_server/http.sock", and the
scheduled next-tick closure sets `loggedIn := true` and emits `login`. -/
theorem claim_C4 (st : ClientState) (opts : LoginOpts)
    (hh : truthyS opts.host = false) (hp : truthyN opts.port = false)
    (hv : truthyS opts.username = truthyS opts.password) :
    getBound_logIn st opts = Except.ok
      { state := { st with connectionOptions := some ⟨none, none, some unixSockName⟩ },
        events := [], request := none, tickScheduled := true } ∧
    unixSockName = "/tmp/rest_server/http.sock" ∧
    socketLoginTick { st with connectionOptions := some ⟨none, none, some unixSockName⟩ } =
      ({ loggedIn := true, apiBase := st.apiBase, sid := st.sid,
         connectionOptions := some ⟨none, none, some unixSockName⟩ },
       [Event.login]) := by
  refine ⟨?_, rfl, rfl⟩
  cases hu : truthyS opts.username <;> cases hpw : truthyS opts.password
  · simp [getBound_logIn, hu, hpw, hh, hp]
  · rw [hu, hpw] at hv
    exact Bool.noConfusion hv
  · rw [hu, hpw] at hv
    exact Bool.noConfusion hv
  · simp [getBound_logIn, hu, hpw, hh, hp]

/-- Witness for C4: a valid credential pair with no host/port logs in over
the unix socket. -/
theorem claim_C4_witness :
    getBound_logIn Client { username := some "a", password := some "b" } = Except.ok
      { state := { loggedIn := false, apiBase := "/lrs/api/v1.0", sid := none,
                   connectionOptions := some ⟨none, none, some "/tmp/rest_server/http.sock"⟩ },
        events := [], request := none, tickScheduled := true } := by
  have h := claim_C4 Client { username := some "a", password := some "b" }
    (by decide) (by decide) (by decide)
  rw [h.1]
  decide

theorem getPostReq_ok (options : BuildOpts) (conn : ConnOptions)
    (hp : truthyS options.path = true) (hl : truthyN options.contentLength = true)
    (ht : truthyS options.contentType = true) (hc : truthyS options.cookie = false) :
    getPostReq options (some conn) = Except.ok
      { requestOptions := mergeOptions
          { path := jsStr options.path, method := "POST", agent := some false,
            headerContentLength := options.contentLength,
            headerContentType := options.contentType } conn,
        hostHeader := jsStr options.host ++ ":" ++ jsStrN options.port } := by
  unfold getPostReq
  simp [hp, hl, ht, hc]

/-- Claim C10: a host/port `logIn` with both username and password falsy
fires no validation error and sends exactly the form body
`"username=testlab&password=changeme"` (hardcoded default credentials); a
missing host defaults to "127.0.0.1" and a missing port to 3001. -/
theorem claim_C10 (st : ClientState) (opts : LoginOpts)
    (hu : truthyS opts.username = false) (hpw : truthyS opts.password = false)
    (hhp : (truthyS opts.host || truthyN opts.port) = true) :
    ∃ (req : OutboundRequest) (h : String) (p : Nat),
      getBound_logIn st opts = Except.ok
        { state := { st with connectionOptions := some ⟨some h, some p, none⟩ },
          events := [], request := some (req, "username=testlab&password=changeme"),
          tickScheduled := false } ∧
      (truthyS opts.host = false → h = "127.0.0.1") ∧
      (truthyN opts.port = false → p = 3001) ∧
      req.hostHeader = h ++ ":" ++ toString p := by
  have hdu := jsOrS_of_falsy opts.username "testlab" hu
  have hdp := jsOrS_of_falsy opts.password "changeme" hpw
  have hcond1 : (truthyS opts.username && !truthyS opts.password) = false := by
    rw [hu]; rfl
  have hcond2 : (!truthyS opts.username && truthyS opts.password) = false := by
    rw [hu, hpw]; rfl
  refine ⟨{ requestOptions := mergeOptions
              { path := jsStr (some (jsOrS opts.path "/login")), method := "POST",
                agent := some false,
                headerContentLength := some ("username=testlab&password=changeme").length,
                headerContentType := some "application/x-www-form-urlencoded" }
              ⟨some (jsOrS opts.host "127.0.0.1"), some (jsOrN opts.port 3001), none⟩,
            hostHeader := jsStr (some (jsOrS opts.host "127.0.0.1")) ++ ":" ++
              jsStrN (some (jsOrN opts.port 3001)) },
          jsOrS opts.host "127.0.0.1", jsOrN opts.port 3001, ?_, ?_, ?_, ?_⟩
  · have hl : truthyN (some ("username=" ++ "testlab" ++ "&password=" ++
        "changeme").length) = true := by decide
    have ht : truthyS (some "application/x-www-form-urlencoded") = true := by decide
    simp only [getBound_logIn, hcond1, hcond2, hhp, hdu, hdp]
    rw [getPostReq_ok
          ({ path := some (jsOrS opts.path "/login"),
             contentLength := some ("username=" ++ "testlab" ++ "&password=" ++
               "changeme").length,
             contentType := some "application/x-www-form-urlencoded", cookie := none,
             host := some (jsOrS opts.host "127.0.0.1"),
             port := some (jsOrN opts.port 3001) } : BuildOpts)
          ⟨some (jsOrS opts.host "127.0.0.1"), some (jsOrN opts.port 3001), none⟩
          (truthyS_jsOrS opts.path "/login" (by decide)) hl ht rfl]
    rfl
  · intro hhf
    exact jsOrS_of_falsy opts.host "127.0.0.1" hhf
  · intro hpf
    exact jsOrN_of_falsy opts.port 3001 hpf
  · rfl

/-- Witness for C10: `logIn({host: "192.168.0.5"})` with no credentials
sends the default form body and defaults the port to 3001. -/
theorem claim_C10_witness :
    ∃ (req : OutboundRequest) (h : String) (p : Nat),
      getBound_logIn Client { host := some "192.168.0.5" } = Except.ok
        { state := { Client with connectionOptions := some ⟨some h, some p, none⟩ },
          events := [], request := some (req, "username=testlab&password=changeme"),
          tickScheduled := false } ∧
      (truthyS (LoginOpts.host { host := some "192.168.0.5" }) = false → h = "127.0.0.1") ∧
      (truthyN (LoginOpts.port { host := some "192.168.0.5" }) = false → p = 3001) ∧
      req.hostHeader = h ++ ":" ++ toString p :=
  claim_C10 Client { host := some "192.168.0.5" } rfl rfl (by decide)

/-- Claim C5: whenever `putJSON(p, b)` builds its outbound request, the
request's path is the fixed API prefix "/lrs/api/v1.0" concatenated with
`p`, the Cookie header equals the stored `sid` when one is set (and is
absent otherwise), the body written is `b` itself when `b` is a string and
`JSON.stringify(b)` otherwise, the Content-Length is that string's length,
and the Content-Type is "application/json". -/
theorem claim_C5 (st : ClientState) (p : String) (b : JVal)
    (hbase : st.apiBase = "/lrs/api/v1.0")
    (req : OutboundRequest) (s : String)
    (h : getBound_putJSON st p b = Except.ok (req, s)) :
    req.requestOptions.path = "/lrs/api/v1.0" ++ p ∧
    (truthyS st.sid = true → req.requestOptions.headerCookie = st.sid) ∧
    (truthyS st.sid = false → req.requestOptions.headerCookie = none) ∧
    s = toJsonString b ∧
    (∀ t, b = JVal.str t → s = t) ∧
    ((∀ t, b ≠ JVal.str t) → s = jsonStringify b) ∧
    req.requestOptions.headerContentLength = some s.length ∧
    req.requestOptions.headerContentType = some "application/json" := by
  simp only [getBound_putJSON] at h
  split at h
  · exact absurd h (by simp)
  · rename_i req2 heq
    simp only [Except.ok.injEq, Prod.mk.injEq] at h
    obtain ⟨hr, hs⟩ := h
    unfold getPutReq at heq
    split at heq
    · exact absurd heq (by simp)
    · split at heq
      · exact absurd heq (by simp)
      · split at heq
        · exact absurd heq (by simp)
        · split at heq
          · exact absurd heq (by simp)
          · simp only [Except.ok.injEq] at heq
            subst hr
            subst hs
            rw [← heq]
            by_cases hsid : truthyS st.sid = true
            · refine ⟨by simp [hsid, mergeOptions, jsStr, hbase], fun _ => by simp [hsid],
                ?_, rfl, ?_, ?_, by simp [hsid, mergeOptions], by simp [hsid, mergeOptions]⟩
              · intro hf; rw [hsid] at hf; exact absurd hf (by decide)
              · intro t hbt; rw [hbt]; rfl
              · intro ht
                cases b with
                | str t => exact absurd rfl (ht t)
                | num n => rfl
                | bool v => rfl
                | null => rfl
                | arr es => rfl
                | obj fs => rfl
            · have hsid2 : truthyS st.sid = false := by
                revert hsid; cases truthyS st.sid <;> simp
              refine ⟨by simp [hsid2, mergeOptions, jsStr, hbase], ?_,
                fun _ => by simp [hsid2, mergeOptions], rfl, ?_, ?_,
                by simp [hsid2, mergeOptions], by simp [hsid2, mergeOptions]⟩
              · intro hf; rw [hsid2] at hf; exact absurd hf (by decide)
              · intro t hbt; rw [hbt]; rfl
              · intro ht
                cases b with
                | str t => exact absurd rfl (ht t)
                | num n => rfl
                | bool v => rfl
                | null => rfl
                | arr es => rfl
                | obj fs => rfl

/-- Witness for C5: `putJSON("/foo", {a: 1})` on a logged-in client sends the
body `'{"a":1}'` with Content-Length 7, Content-Type `application/json`, the
API-prefixed path and the stored cookie. -/
theorem claim_C5_witness :
    getBound_putJSON ({ loggedIn := true, apiBase := "/lrs/api/v1.0",
                        sid := some "sid=abc123",
                        connectionOptions := some ⟨some "127.0.0.1", some 3001, none⟩ } :
                        ClientState) "/foo" (JVal.obj [("a", JVal.num 1)])
      = Except.ok ({ requestOptions := { path := "/lrs/api/v1.0/foo", method := "PUT",
                                         agent := none, headerAccept := "*/*",
                                         headerContentLength := some 7,
                                         headerContentType := some "application/json",
                                         headerCookie := some "sid=abc123",
                                         host := some "127.0.0.1", port := some 3001,
                                         socketPath := none },
                     hostHeader := "undefined:undefined" }, "\x7b\"a\":1\x7d") ∧
    ("\x7b\"a\":1\x7d").length = 7 ∧
    ReqOptions.path { path := "/lrs/api/v1.0/foo", method := "PUT",
                      agent := none, headerAccept := "*/*",
                      headerContentLength := some 7,
                      headerContentType := some "application/json",
                      headerCookie := some "sid=abc123",
                      host := some "127.0.0.1", port := some 3001,
                      socketPath := none } = "/lrs/api/v1.0" ++ "/foo" := by
  have h0 : getBound_putJSON ({ loggedIn := true, apiBase := "/lrs/api/v1.0",
                                sid := some "sid=abc123",
                                connectionOptions := some ⟨some "127.0.0.1", some 3001, none⟩ } :
                                ClientState) "/foo" (JVal.obj [("a", JVal.num 1)])
      = Except.ok ({ requestOptions := { path := "/lrs/api/v1.0/foo", method := "PUT",
                                         agent := none, headerAccept := "*/*",
                                         headerContentLength := some 7,
                                         headerContentType := some "application/json",
                                         headerCookie := some "sid=abc123",
                                         host := some "127.0.0.1", port := some 3001,
                                         socketPath := none },
                     hostHeader := "undefined:undefined" }, "\x7b\"a\":1\x7d") := by
    decide
  have h := claim_C5 ({ loggedIn := true, apiBase := "/lrs/api/v1.0",
                        sid := some "sid=abc123",
                        connectionOptions := some ⟨some "127.0.0.1", some 3001, none⟩ } :
                        ClientState) "/foo" (JVal.obj [("a", JVal.num 1)]) rfl
    ({ requestOptions := { path := "/lrs/api/v1.0/foo", method := "PUT",
                           agent := none, headerAccept := "*/*",
                           headerContentLength := some 7,
                           headerContentType := some "application/json",
                           headerCookie := some "sid=abc123",
                           host := some "127.0.0.1", port := some 3001,
                           socketPath := none },
       hostHeader := "undefined:undefined" } : OutboundRequest) "\x7b\"a\":1\x7d" h0
  exact ⟨h0, by decide, h.1⟩

theorem jsAssign_not_mem {V : Type} (o : List (String × V)) (k : String) (v : V)
    (h : ∀ q ∈ o, q.1 ≠ k) : jsAssign o k v = o ++ [(k, v)] := by
  unfold jsAssign
  have hf : o.find? (fun q => q.1 == k) = none := by
    rw [List.find?_eq_none]
    intro q hq
    simp [h q hq]
  simp [hf]

theorem assignAll_append {V : Type} (ps : List (String × V)) :
    ∀ (o : List (String × V)),
    (∀ q ∈ ps, ∀ r ∈ o, r.1 ≠ q.1) → (ps.map Prod.fst).Nodup →
    assignAll o ps = o ++ ps := by
  induction ps with
  | nil =>
    intro o _ _
    simp [assignAll]
  | cons q ps ih =>
    intro o hdisj hnd
    simp only [List.map_cons, List.nodup_cons] at hnd
    have h1 : jsAssign o q.1 q.2 = o ++ [(q.1, q.2)] :=
      jsAssign_not_mem o q.1 q.2 (fun r hr => hdisj q (List.mem_cons_self q ps) r hr)
    have hstep : assignAll o (q :: ps) = assignAll (jsAssign o q.1 q.2) ps := rfl
    rw [hstep, h1]
    have hdisj2 : ∀ q2 ∈ ps, ∀ r ∈ o ++ [(q.1, q.2)], r.1 ≠ q2.1 := by
      intro q2 hq2 r hr
      rcases List.mem_append.mp hr with hro | hrq
      · exact hdisj q2 (List.mem_cons_of_mem q hq2) r hro
      · simp only [List.mem_singleton] at hrq
        subst hrq
        intro hc
        exact hnd.1 (hc ▸ List.mem_map_of_mem Prod.fst hq2)
    rw [ih (o ++ [(q.1, q.2)]) hdisj2 hnd.2, List.append_assoc]
    rfl

theorem map_fst_zip_take {α β : Type} (l : List α) :
    ∀ (m : List β), (l.zip m).map Prod.fst = l.take m.length := by
  induction l with
  | nil => intro m; simp
  | cons a l ih =>
    intro m
    cases m with
    | nil => simp
    | cons b m => simp [ih m]

theorem testRequiredOptions_ok_of (fields : List (String × Arg)) (req : List String)
    (h : ∀ k ∈ req, truthyArg (jsLookup fields k) = true) :
    testRequiredOptions fields req = Except.ok () := by
  induction req with
  | nil => rfl
  | cons k rest ih =>
    unfold testRequiredOptions
    rw [if_pos (h k (List.mem_cons_self k rest))]
    exact ih (fun k2 hk2 => h k2 (List.mem_cons_of_mem k hk2))

theorem testRequiredOptions_error_of (fields : List (String × Arg)) (req : List String) :
    ∀ (k0 : String),
    req.find? (fun k => !truthyArg (jsLookup fields k)) = some k0 →
    testRequiredOptions fields req = Except.error (missingArgError k0) := by
  induction req with
  | nil =>
    intro k0 h
    simp at h
  | cons k rest ih =>
    intro k0 h
    by_cases ht : truthyArg (jsLookup fields k) = true
    · rw [List.find?_cons_of_neg] at h
      · unfold testRequiredOptions
        rw [if_pos ht]
        exact ih k0 h
      · simp [ht]
    · have ht2 : truthyArg (jsLookup fields k) = false := by
        revert ht; cases truthyArg (jsLookup fields k) <;> simp
      rw [List.find?_cons_of_pos] at h
      · have hk : k = k0 := Option.some.inj h
        unfold testRequiredOptions
        rw [if_neg ht, hk]
      · simp [ht2]

theorem parseOptions_positional (a0 : Arg) (rest : List Arg) (req opt : List String)
    (hs : isStringArg a0 = true) (hlen : req.length ≤ (a0 :: rest).length)
    (hnd : (req ++ opt).Nodup) :
    parseOptions (a0 :: rest) req opt =
      Except.ok ((req.zip (a0 :: rest)) ++ (opt.zip ((a0 :: rest).drop req.length))) := by
  rcases List.nodup_append.mp hnd with ⟨hr, ho, hdisj⟩
  simp only [parseOptions]
  rw [if_pos hs, if_neg (Nat.not_lt.mpr hlen)]
  have hkeys1 : (req.zip (a0 :: rest)).map Prod.fst = req := List.map_fst_zip req (a0 :: rest) hlen
  have h1 : assignAll [] (req.zip (a0 :: rest)) = req.zip (a0 :: rest) := by
    have := assignAll_append (req.zip (a0 :: rest)) [] (by simp) (by rw [hkeys1]; exact hr)
    simpa using this
  have hkeys2 : (opt.zip ((a0 :: rest).drop req.length)).map Prod.fst
      = opt.take ((a0 :: rest).drop req.length).length := map_fst_zip_take opt _
  have hnd2 : ((opt.zip ((a0 :: rest).drop req.length)).map Prod.fst).Nodup := by
    rw [hkeys2]
    exact List.Nodup.sublist (List.take_sublist _ _) ho
  have hdisj2 : ∀ q ∈ opt.zip ((a0 :: rest).drop req.length),
      ∀ r ∈ req.zip (a0 :: rest), r.1 ≠ q.1 := by
    intro q hq r hrm
    obtain ⟨qk, qv⟩ := q
    obtain ⟨rk, rv⟩ := r
    have hqk : qk ∈ opt := (List.of_mem_zip hq).1
    have hrk : rk ∈ req := (List.of_mem_zip hrm).1
    intro hc
    have hc2 : rk = qk := hc
    exact hdisj hrk (hc2 ▸ hqk)
  rw [h1, assignAll_append _ _ hdisj2 hnd2]

theorem parseOptions_object_error (a0 : Arg) (rest : List Arg) (req opt : List String)
    (k0 : String) (hs : isStringArg a0 = false)
    (hf : req.find? (fun k => !truthyArg (jsLookup (argFields a0) k)) = some k0) :
    parseOptions (a0 :: rest) req opt = Except.error (missingArgError k0) := by
  simp only [parseOptions]
  rw [if_neg (by simp [hs]), testRequiredOptions_error_of (argFields a0) req k0 hf]

theorem parseOptions_object_ok (a0 : Arg) (req opt : List String)
    (hs : isStringArg a0 = false)
    (ht : ∀ k ∈ req, truthyArg (jsLookup (argFields a0) k) = true)
    (hnd : ((argFields a0).map Prod.fst).Nodup) :
    parseOptions [a0] req opt = Except.ok (argFields a0) := by
  simp only [parseOptions]
  rw [if_neg (by simp [hs]), testRequiredOptions_ok_of (argFields a0) req ht]
  have h1 : assignAll [] (argFields a0) = argFields a0 := by
    have := assignAll_append (argFields a0) [] (by simp) hnd
    simpa using this
  have hz : opt.zip ([] : List Arg) = [] := List.zip_nil_right
  rw [hz]
  have hstep : assignAll (assignAll [] (argFields a0)) ([] : List (String × Arg))
      = assignAll [] (argFields a0) := rfl
  rw [hstep, h1]

/-- Counterexample for C6: in object mode the code throws for a required key
whose value is present but falsy (here `path: ""`), although the claim says
it only fails when a required key is absent; and with `{a: ""}` against
required keys `a, b` it names `a` (the first falsy one), not `b` (the first
absent one). -/
theorem claim_C6_counterexample :
    (jsLookup [("path", Arg.str "")] "path").isSome = true ∧
    parseOptions [Arg.obj [("path", Arg.str "")]] ["path"] [] =
      Except.error "Missing required argument: path" ∧
    (jsLookup [("a", Arg.str "")] "a").isSome = true ∧
    (jsLookup [("a", Arg.str "")] "b").isSome = false ∧
    parseOptions [Arg.obj [("a", Arg.str "")]] ["a", "b"] [] =
      Except.error "Missing required argument: a" :=
  ⟨rfl, rfl, rfl, rfl, rfl⟩

/-- Claim C6 (amended): `parseOptions` returns an empty record on zero
arguments with no required fields and fails otherwise; with a string-typed
first argument it fails when fewer arguments than required names are given,
and otherwise fills required fields from the arguments in order, optional
fields from the remaining arguments in order, silently ignoring extra
arguments; with a non-string first argument it fails naming the first
required key whose value in the object is missing or falsy, and otherwise
(every required key truthy) copies every property of the object into the
result. -/
theorem claim_C6 :
    (∀ (opt : List String), parseOptions [] [] opt = Except.ok []) ∧
    (∀ (req opt : List String), req ≠ [] →
      parseOptions [] req opt =
        Except.error ("More arguments required (" ++ String.intercalate "," req ++ ")")) ∧
    (∀ (a0 : Arg) (rest : List Arg) (req opt : List String),
      isStringArg a0 = true → (a0 :: rest).length < req.length →
      parseOptions (a0 :: rest) req opt =
        Except.error ("More arguments required (" ++ String.intercalate "," req ++ ")")) ∧
    (∀ (a0 : Arg) (rest : List Arg) (req opt : List String),
      isStringArg a0 = true → req.length ≤ (a0 :: rest).length → (req ++ opt).Nodup →
      parseOptions (a0 :: rest) req opt =
        Except.ok ((req.zip (a0 :: rest)) ++ (opt.zip ((a0 :: rest).drop req.length)))) ∧
    (∀ (a0 : Arg) (rest : List Arg) (req opt : List String) (k0 : String),
      isStringArg a0 = false →
      req.find? (fun k => !truthyArg (jsLookup (argFields a0) k)) = some k0 →
      parseOptions (a0 :: rest) req opt = Except.error (missingArgError k0)) ∧
    (∀ (a0 : Arg) (req opt : List String),
      isStringArg a0 = false →
      (∀ k ∈ req, truthyArg (jsLookup (argFields a0) k) = true) →
      ((argFields a0).map Prod.fst).Nodup →
      parseOptions [a0] req opt = Except.ok (argFields a0)) := by
  refine ⟨fun opt => rfl, ?_, ?_, parseOptions_positional, parseOptions_object_error,
          parseOptions_object_ok⟩
  · intro req opt hne
    cases req with
    | nil => exact absurd rfl hne
    | cons k r => rfl
  · intro a0 rest req opt hs hlt
    simp only [parseOptions]
    rw [if_pos hs, if_pos hlt]

/-- Witness for C6: concrete positional fill, positional failure, and
object-mode copy. -/
theorem claim_C6_witness :
    parseOptions [Arg.str "/x", Arg.fn, Arg.fn] ["path", "body"] ["callback"] =
      Except.ok [("path", Arg.str "/x"), ("body", Arg.fn), ("callback", Arg.fn)] ∧
    parseOptions [Arg.str "/x"] ["path", "body"] ["callback"] =
      Except.error "More arguments required (path,body)" ∧
    parseOptions [Arg.obj [("path", Arg.str "/y"), ("extra", Arg.fn)]] ["path"] ["callback"] =
      Except.ok [("path", Arg.str "/y"), ("extra", Arg.fn)] := by
  refine ⟨?_, ?_, ?_⟩
  · have h := claim_C6.2.2.2.1 (Arg.str "/x") [Arg.fn, Arg.fn] ["path", "body"] ["callback"]
      rfl (by decide) (by decide)
    rw [h]
    rfl
  · have h := claim_C6.2.2.1 (Arg.str "/x") [] ["path", "body"] ["callback"] rfl (by decide)
    rw [h]
    rfl
  · have h := claim_C6.2.2.2.2.2 (Arg.obj [("path", Arg.str "/y"), ("extra", Arg.fn)])
      ["path"] ["callback"] rfl (by decide) (by decide)
    rw [h]
    rfl
